import Mathlib

/-!
Verification of the site-specific extractor modules under src/yt_dlp/extractor/
(jtbc.py, vrt.py, servus.py, manoto.py, kanal2.py) against their natural-language
specification.

The modules are shallowly embedded: Python JSON-like values become `PyVal`,
Python runtime failures (KeyError, AttributeError, TypeError, NameError and the
framework's ExtractorError and its geo/login signals) become `PyErr`, and each
extractor's field traversal becomes an executable Lean function in the
`Except PyErr` monad.  The regex URL patterns (`_VALID_URL` and the in-module
search regexes) are embedded as executable deterministic matchers over
character lists, faithful to Python `re` semantics on the inputs concerned.

Host-framework helpers that the modules call but that are not part of the five
source files (manifest expansion, `parse_iso8601`, `unified_timestamp`,
`strftime`/`gmtime`) are passed in as explicit function parameters, or - where a
claim needs their concrete value - modelled from the spec, with a doc comment
saying so.
-/

set_option maxRecDepth 4000

/-- Python values as they appear in the JSON responses the extractors consume:
`None`, booleans, integers, strings, lists and string-keyed dicts.  All numeric
fields exercised by the fixtures are exact integers, so numbers are embedded as
`Int`. -/
inductive PyVal where
  | none
  | bool (b : Bool)
  | int (n : Int)
  | str (s : String)
  | list (xs : List PyVal)
  | dict (kvs : List (String × PyVal))

/-- The Python exceptions and framework error signals the embedded code can
raise.  `extractorError` is the framework's generic "extraction failed"
condition with its `expected` flag; `loginRequired` and `geoRestricted` are the
framework's dedicated signals raised by `raise_login_required` and
`raise_geo_restricted`. -/
inductive PyErr where
  | keyError (key : String)
  | indexError
  | typeError (msg : String)
  | attributeError (attr : String)
  | valueError (msg : String)
  | nameError (name : String)
  | extractorError (msg : PyVal) (expected : Bool)
  | loginRequired
  | geoRestricted (countries : List String)

/-- First value bound to `key` in an association list (Python dict lookup). -/
def lookupKey : List (String × PyVal) → String → Option PyVal
  | [], _ => Option.none
  | (k, v) :: rest, key => if k = key then Option.some v else lookupKey rest key

/-- Python `key in d` on a dict (`False` on anything without keys). -/
def PyVal.hasKey : PyVal → String → Bool
  | .dict kvs, key => (lookupKey kvs key).isSome
  | _, _ => false

/-- Python `d.get(key)`: `None` when the key is absent; AttributeError when the
receiver is not a dict (in particular when it is `None`). -/
def PyVal.get : PyVal → String → Except PyErr PyVal
  | .dict kvs, key => .ok ((lookupKey kvs key).getD .none)
  | _, _ => .error (.attributeError "get")

/-- Python `d.get(key, default)`. -/
def PyVal.getD : PyVal → String → PyVal → Except PyErr PyVal
  | .dict kvs, key, dflt => .ok ((lookupKey kvs key).getD dflt)
  | _, _, _ => .error (.attributeError "get")

/-- Python subscript `d[key]`: KeyError when absent, TypeError when the
receiver is not subscriptable by a string. -/
def PyVal.index : PyVal → String → Except PyErr PyVal
  | .dict kvs, key =>
    match lookupKey kvs key with
    | Option.some v => .ok v
    | Option.none => .error (.keyError key)
  | .none, _ => .error (.typeError "NoneType is not subscriptable")
  | _, _ => .error (.typeError "not subscriptable")

/-- Python subscript `xs[i]` on a list: IndexError when out of range. -/
def PyVal.item : PyVal → Nat → Except PyErr PyVal
  | .list xs, i =>
    match xs.get? i with
    | Option.some v => .ok v
    | Option.none => .error .indexError
  | .none, _ => .error (.typeError "NoneType is not subscriptable")
  | _, _ => .error (.typeError "not subscriptable")

/-- Python truthiness. -/
def PyVal.truthy : PyVal → Bool
  | .none => false
  | .bool b => b
  | .int n => if n = 0 then false else true
  | .str s => if s = "" then false else true
  | .list xs => !xs.isEmpty
  | .dict kvs => !kvs.isEmpty

/-- Python `a or b`. -/
def PyVal.orElsePy (a b : PyVal) : PyVal := if a.truthy then a else b

/-- Python `str(v)` for the shapes that occur in the embedded code. -/
def PyVal.toStr : PyVal → String
  | .none => "None"
  | .bool b => if b then "True" else "False"
  | .int n => toString n
  | .str s => s
  | .list _ => "<list>"
  | .dict _ => "<dict>"

/-- Python `v.isdigit()`: defined on strings only, AttributeError elsewhere
(including on `None` and on ints). -/
def PyVal.isdigitM : PyVal → Except PyErr Bool
  | .str s => .ok (if s = "" then false else s.data.all Char.isDigit)
  | _ => .error (.attributeError "isdigit")

/-- Decimal value of a digit string. -/
def parseNatDigits (cs : List Char) : Nat :=
  cs.foldl (fun acc c => acc * 10 + (c.toNat - 48)) 0

/-- Python `v * n` for the operand shapes that occur (int times int; string
times int is repetition; `None` times int is a TypeError). -/
def PyVal.mulInt : PyVal → Int → Except PyErr PyVal
  | .int k, n => .ok (.int (k * n))
  | .str s, n => .ok (.str (String.join (List.replicate n.toNat s)))
  | .bool b, n => .ok (.int ((if b then 1 else 0) * n))
  | _, _ => .error (.typeError "unsupported operand type for *")

/-- The framework's `traverse_obj` on a plain key path: total, yielding `None`
instead of raising when a step is missing or the value is not a dict. -/
def PyVal.tr : PyVal → List String → PyVal
  | v, [] => v
  | v, k :: rest =>
    (match v with
     | .dict kvs => (lookupKey kvs k).getD PyVal.none
     | _ => PyVal.none).tr rest

/-- Python `v == "s"` (equality between an arbitrary value and a string
literal: only a string can compare equal). -/
def pyEqStr (v : PyVal) (s : String) : Bool :=
  match v with
  | .str t => t == s
  | _ => false

/-- Modelled from the spec: the host framework's `int_or_none` scalar coercion
(yt_dlp/utils, not included under src/): ints pass through, decimal strings
are parsed, everything else becomes `None`. -/
def int_or_none : PyVal → Option Int
  | .int n => Option.some n
  | .str s =>
    if s = "" then Option.none
    else if s.data.all Char.isDigit then Option.some (parseNatDigits s.data)
    else Option.none
  | _ => Option.none

/-- Split a character list on a separator (the separators themselves are
dropped; `n` separators yield `n + 1` groups). -/
def splitOnChar (sep : Char) : List Char → List (List Char)
  | [] => [[]]
  | c :: rest =>
    match splitOnChar sep rest with
    | [] => [[c]]
    | g :: gs => if c == sep then [] :: g :: gs else (c :: g) :: gs

/-- Whether one character list is a leading prefix of another. -/
def startsWithChars : List Char → List Char → Bool
  | [], _ => true
  | _ :: _, [] => false
  | p :: ps, c :: cs => p == c && startsWithChars ps cs

/-- Whether the string starts with the given literal. -/
def startsWithLit (p : String) (s : String) : Bool := startsWithChars p.data s.data

/-- Modelled from the spec: the host framework's `url_or_none`
(yt_dlp/utils, not included under src/): keeps a string that looks like an
http(s) URL, yields `None` otherwise. -/
def url_or_none (v : PyVal) : PyVal :=
  match v with
  | .str s => if startsWithLit "https://" s || startsWithLit "http://" s then v else .none
  | _ => .none

/-! ### Executable embedding of the regular expressions

The `_VALID_URL` patterns and the in-module search regexes are embedded as
deterministic matchers over `List Char`.  Alternations are tried in the order
the regex writes them; greedy optional pieces are tried consumed-first with a
fallback, which reproduces the backtracking the patterns need on the character
classes involved (none of the optional pieces can overlap the characters that
follow them, apart from the cases where the fallback below restores the regex
behaviour). -/

/-- Consume an exact literal prefix. -/
def dropPrefixLit : List Char → List Char → Option (List Char)
  | [], cs => Option.some cs
  | _ :: _, [] => Option.none
  | p :: ps, c :: cs => if c = p then dropPrefixLit ps cs else Option.none

/-- Consume a literal given as a string. -/
def lit (s : String) (cs : List Char) : Option (List Char) := dropPrefixLit s.data cs

/-- Consume one or more digits, greedily (`\d+`). -/
def digits1 : List Char → Option (List Char)
  | [] => Option.none
  | c :: cs => if c.isDigit then Option.some (cs.dropWhile Char.isDigit) else Option.none

/-- `[^/]+/` : one path segment including its closing slash. -/
def seg (cs : List Char) : Option (List Char) :=
  let tk := cs.takeWhile (fun c => c != '/')
  let rest := cs.dropWhile (fun c => c != '/')
  if tk.isEmpty then Option.none else lit "/" rest

/-- `[^/]+` : a nonempty run of non-slash characters, greedily. -/
def nonSlash1 : List Char → Option (List Char)
  | [] => Option.none
  | c :: cs =>
    if c == '/' then Option.none
    else Option.some ((c :: cs).dropWhile (fun d => d != '/'))

/-- `https?://` . -/
def dropScheme (cs : List Char) : Option (List Char) :=
  (lit "https://" cs) <|> (lit "http://" cs)

/-- Greedy optional literal (`(?:s)?`) in continuation style, with the
backtracking fallback to not consuming it. -/
def optLitThen (s : String) (k : List Char → Option α) (cs : List Char) : Option α :=
  (match lit s cs with
   | Option.some rest => k rest
   | Option.none => Option.none) <|> k cs

/-- Greedy optional path segment (`(?:[^/]+/)?`) in continuation style. -/
def optSegThen (k : List Char → Option α) (cs : List Char) : Option α :=
  (match seg cs with
   | Option.some rest => k rest
   | Option.none => Option.none) <|> k cs

namespace JTBCIE

/-- The host part of JTBCIE._VALID_URL after the scheme:
`vod\.jtbc\.co\.kr/player/(?:program|clip)` or
`tv\.jtbc\.co\.kr/(?:replay|trailer|clip)/pr\d+/pm\d+`. -/
def hostTail (cs : List Char) : Option (List Char) :=
  ((lit "vod.jtbc.co.kr/player/" cs).bind (fun r =>
    (lit "program" r) <|> (lit "clip" r)))
  <|>
  ((lit "tv.jtbc.co.kr/" cs).bind (fun r =>
    ((((lit "replay" r) <|> (lit "trailer" r)) <|> (lit "clip" r)).bind (fun r2 =>
      (lit "/pr" r2).bind (fun r3 =>
        (digits1 r3).bind (fun r4 =>
          (lit "/pm" r4).bind digits1))))))

/-- The id capture `(?P<id>(?:ep|vo)\d+)`. -/
def idCapture (cs : List Char) : Option String :=
  (((lit "ep" cs).map (fun r => ("ep", r))) <|>
   ((lit "vo" cs).map (fun r => ("vo", r)))).bind (fun pr =>
    match pr.2 with
    | [] => Option.none
    | c :: _ =>
      if c.isDigit then Option.some (pr.1 ++ String.mk (pr.2.takeWhile Char.isDigit))
      else Option.none)

/-- Embedding of `JTBCIE._VALID_URL` together with the `id` group that
`_match_id` extracts. -/
def valid_url_id (url : String) : Option String :=
  (dropScheme url.data).bind (fun cs =>
    (hostTail cs).bind (fun rest =>
      (lit "/" rest).bind idCapture))

end JTBCIE

namespace ServusIE

/-- `\w` (ASCII range, which covers every identifier in the fixtures). -/
def isWordChar (c : Char) : Bool := c.isAlphanum || c == '_'

/-- The id capture `(?P<id>[aA]{2}-?\w+|\d+-\d+)`, alternatives in regex
order. -/
def idCapture (cs : List Char) : Option String :=
  (match cs with
   | c1 :: c2 :: rest =>
     if ((c1 == 'a') || (c1 == 'A')) && ((c2 == 'a') || (c2 == 'A')) then
       let dashRest : List Char × List Char :=
         match rest with
         | c :: r => if c == '-' then ([c], r) else ([], c :: r)
         | [] => ([], [])
       let ws := dashRest.2.takeWhile isWordChar
       if ws.isEmpty then Option.none
       else Option.some (String.mk (c1 :: c2 :: (dashRest.1 ++ ws)))
     else Option.none
   | _ => Option.none)
  <|>
  (let d1 := cs.takeWhile Char.isDigit
   let r1 := cs.dropWhile Char.isDigit
   if d1.isEmpty then Option.none
   else match r1 with
     | c :: r2 =>
       if c == '-' then
         let d2 := r2.takeWhile Char.isDigit
         if d2.isEmpty then Option.none
         else Option.some (String.mk (d1 ++ c :: d2))
       else Option.none
     | [] => Option.none)

/-- The trailing `/(?P<id>...)` of the pattern. -/
def idPart (cs : List Char) : Option String :=
  (lit "/" cs).bind idCapture

/-- Embedding of `ServusIE._VALID_URL` together with its `id` group:
`https?://(?:www\.)?(?:servus\.com/(?:(?:at|de)/p/[^/]+|tv/videos)|`
`(?:servustv|pm-wissen)\.com/(?:[^/]+/)?v(?:ideos)?)/(?P<id>[aA]{2}-?\w+|\d+-\d+)`. -/
def valid_url_id (url : String) : Option String :=
  (dropScheme url.data).bind (fun cs0 =>
    optLitThen "www." (fun cs =>
      ((lit "servus.com/" cs).bind (fun r =>
        (((lit "at/p/" r) <|> (lit "de/p/" r)).bind (fun r2 =>
          (nonSlash1 r2).bind idPart))
        <|> ((lit "tv/videos" r).bind idPart)))
      <|>
      (((lit "servustv.com/" cs) <|> (lit "pm-wissen.com/" cs)).bind (fun r =>
        optSegThen (fun r2 =>
          (lit "v" r2).bind (fun r3 =>
            optLitThen "ideos" idPart r3)) r))) cs0)

end ServusIE

namespace ManotoTVIE

/-- Embedding of `ManotoTVIE._VALID_URL`
(`https?://(?:www\.)?manototv\.com/episode/(?P<id>[0-9]+)`) together with its
`id` group. -/
def valid_url_id (url : String) : Option String :=
  (dropScheme url.data).bind (fun cs0 =>
    optLitThen "www." (fun cs =>
      (lit "manototv.com/episode/" cs).bind (fun r =>
        match r with
        | [] => Option.none
        | c :: _ =>
          if c.isDigit then Option.some (String.mk (r.takeWhile Char.isDigit))
          else Option.none)) cs0)

end ManotoTVIE

namespace VRTIE

/-- Embedding of `VRTIE._VALID_URL`
(`https?://(?:www\.)?vrt\.be/vrtnu/a-z/(?:[^/]+/){2}(?P<id>[^/?#&]+)`)
together with its `id` group. -/
def valid_url_id (url : String) : Option String :=
  (dropScheme url.data).bind (fun cs0 =>
    optLitThen "www." (fun cs =>
      (lit "vrt.be/vrtnu/a-z/" cs).bind (fun r =>
        (seg r).bind (fun r2 =>
          (seg r2).bind (fun r3 =>
            let tk := r3.takeWhile (fun c =>
              !((c == '/') || (c == '?') || (c == '#') || (c == '&')))
            if tk.isEmpty then Option.none else Option.some (String.mk tk))))) cs0)

end VRTIE

/-! ### JTBCIE._real_extract (src/yt_dlp/extractor/jtbc.py, lines 79-114) -/

namespace JTBCIE

/-- The page-scrape regex `data-vod="(VO\d+)"` applied with `re.search`
semantics at one position: the literal, the captured `VO\d+`, the closing
quote. -/
def vodIdAt (cs : List Char) : Option String :=
  (lit "data-vod=\"VO" cs).bind (fun r =>
    match r with
    | [] => Option.none
    | c :: _ =>
      if c.isDigit then
        let ds := r.takeWhile Char.isDigit
        match r.dropWhile Char.isDigit with
        | q :: _ => if q == '"' then Option.some ("VO" ++ String.mk ds) else Option.none
        | [] => Option.none
      else Option.none)

/-- `self._search_regex(r'data-vod="(VO\d+)"', webpage, 'vod id')`: leftmost
occurrence wins, as with `re.search`. -/
def search_vod_id : List Char → Option String
  | [] => Option.none
  | c :: rest =>
    match vodIdAt (c :: rest) with
    | Option.some v => Option.some v
    | Option.none => search_vod_id rest

/-- Modelled from the spec: the host framework's `parse_duration` helper
(yt_dlp/utils, not included under src/).  On colon-separated digit strings
(`hh:mm:ss`, `mm:ss`) and on plain digit strings it returns the total number
of seconds; on anything else, including `None`, it returns `None`.  All
fixture durations are exact integers (the JTBC example must yield 3770.0 per
the spec), so the value is embedded as `Int`. -/
def parse_duration (v : PyVal) : Option Int :=
  match v with
  | .str s =>
    let parts := splitOnChar ':' s.data
    if parts.all (fun p => !p.isEmpty && p.all Char.isDigit) then
      match parts with
      | [s1] => Option.some (parseNatDigits s1)
      | [m1, s1] => Option.some (parseNatDigits m1 * 60 + parseNatDigits s1)
      | [h1, m1, s1] =>
        Option.some (parseNatDigits h1 * 3600 + parseNatDigits m1 * 60 +
          parseNatDigits s1)
      | _ => Option.none
    else Option.none
  | _ => Option.none

/-- The `release_date` leg of the `traverse_obj` mapping:
`('broadcastDate', {lambda x: re.match(r'\d{8}', x.replace('.', ''))}, 0)` -
remove the dots, `re.match` eight digits at the start, take group 0.
`traverse_obj` discards branches whose transform raises, so a non-string
yields `None`. -/
def release_date_of (bd : PyVal) : Option String :=
  match bd with
  | .str s =>
    let cleaned := s.data.filter (fun c => c != '.')
    let first8 := cleaned.take 8
    if first8.length = 8 && first8.all Char.isDigit then Option.some (String.mk first8)
    else Option.none
  | _ => Option.none

/-- `traverse_obj(playback_data, ('tracks', lambda _, v: v['file']))`: the
track dicts whose `file` entry exists and is truthy (a raising filter drops
the element). -/
def tracksOf (playback : PyVal) : List PyVal :=
  match playback.tr ["tracks"] with
  | .list xs => xs.filter (fun v => (v.tr ["file"]).truthy)
  | _ => []

/-- `subtitles.setdefault(label, []).append(entry)` over an association list
that keeps insertion order. -/
def addSub (acc : List (String × List String)) (label : String) (file : String) :
    List (String × List String) :=
  match acc with
  | [] => [(label, [file])]
  | (l, fs) :: rest =>
    if l = label then (l, fs ++ [file]) :: rest
    else (l, fs) :: addSub rest label file

/-- The subtitles loop of `_real_extract`: label from `sub.get('label', 'und')`,
url from `sub['file']`. -/
def subsFold : List PyVal → List (String × List String) → List (String × List String)
  | [], acc => acc
  | sub :: rest, acc =>
    let label :=
      match sub with
      | .dict kvs =>
        match lookupKey kvs "label" with
        | Option.some v => v.toStr
        | Option.none => "und"
      | _ => "und"
    subsFold rest (addSub acc label (sub.tr ["file"]).toStr)

/-- One position of `re.sub(r'/playlist(?:_pd\d+)?\.m3u8', '/index.m3u8', _)`:
the literal `/playlist`, a greedy optional `_pd\d+` (with the backtracking
fallback), then `.m3u8`. -/
def playlistPatAt (cs : List Char) : Option (List Char) :=
  (lit "/playlist" cs).bind (fun r =>
    (((lit "_pd" r).bind digits1).bind (fun rr => lit ".m3u8" rr))
    <|> (lit ".m3u8" r))

/-- `re.sub` scanning left to right, replacing every non-overlapping match;
the fuel is the string length, an upper bound on the scan steps. -/
def rewriteAux : Nat → List Char → List Char
  | 0, cs => cs
  | _ + 1, [] => []
  | fuel + 1, c :: rest =>
    match playlistPatAt (c :: rest) with
    | Option.some r2 => "/index.m3u8".data ++ rewriteAux fuel r2
    | Option.none => c :: rewriteAux fuel rest

/-- `re.sub(r'/playlist(?:_pd\d+)?\.m3u8', '/index.m3u8', stream['file'])`. -/
def rewrite_m3u8 (s : String) : String := String.mk (rewriteAux s.length s.data)

/-- The formats loop of `_real_extract`: the HLS sources with a truthy `file`,
their playlist URL rewritten to `/index.m3u8`.  The expansion of each
manifest into format descriptors is the framework's
`_extract_m3u8_formats` and is kept as the manifest URL. -/
def hlsSources (playback : PyVal) : List String :=
  match playback.tr ["sources", "HLS"] with
  | .list xs =>
    (xs.filter (fun v => (v.tr ["file"]).truthy)).map
      (fun v => rewrite_m3u8 (v.tr ["file"]).toStr)
  | _ => []

/-- The media record `JTBCIE._real_extract` returns. -/
structure JtbcRecord where
  id : String
  title : PyVal
  series : PyVal
  age_limit : Option Int
  release_date : Option String
  description : PyVal
  thumbnail : PyVal
  duration : Option Int
  formats : List String
  subtitles : List (String × List String)

/-- Embedding of `JTBCIE._real_extract`.  The two `_download_json` responses
(mobile details keyed by the scraped vod file id, and the VOD playback data)
are inputs; `metadata` may be any value because its download is
`fatal=False`, and every metadata field goes through `traverse_obj`. -/
def real_extract (url webpage : String) (metadata playback : PyVal) :
    Except PyErr JtbcRecord := do
  let video_id ←
    match valid_url_id url with
    | Option.some v => Except.ok v
    | Option.none =>
      Except.error (.extractorError (.str "Unsupported URL") false)
  let _file_id ←
    match search_vod_id webpage.data with
    | Option.some v => Except.ok v
    | Option.none =>
      Except.error (.extractorError (.str "Unable to extract vod id") false)
  let subtitles := subsFold (tracksOf playback) []
  let formats := hlsSources playback
  let playTime ← playback.get "playTime"
  Except.ok
    { id := video_id
      title := metadata.tr ["vodDetail", "vodTitleView"]
      series := metadata.tr ["vodDetail", "programTitle"]
      age_limit := int_or_none (metadata.tr ["vodDetail", "watchAge"])
      release_date := release_date_of (metadata.tr ["vodDetail", "broadcastDate"])
      description := metadata.tr ["vodDetail", "episodeContents"]
      thumbnail := url_or_none (metadata.tr ["vodDetail", "imgFileUrl"])
      duration := parse_duration playTime
      formats := formats
      subtitles := subtitles }

/-- The spec's sample URL for JTBC. -/
def sampleUrl : String := "https://tv.jtbc.co.kr/replay/pr10011629/pm10067930/ep20216321/view"

/-- Modelled from the spec: the recorded page for the sample URL (the real
page is not part of src/); it carries the `data-vod` attribute the module
scrapes. -/
def sampleWebpage : String := "<div class=\"player\" data-vod=\"VO10175557\"></div>"

/-- Modelled from the spec: the recorded mobile-details response for the
sample URL, shaped as `_real_extract` consumes it and carrying the fixture's
literal expected values (release date 2023-10-08, age limit 15). -/
def sampleMetadata : PyVal :=
  .dict [("vodDetail", .dict
    [("vodTitleView", .str "힘쎈여자 강남순 2회 다시보기"),
     ("programTitle", .str "힘쎈여자 강남순"),
     ("watchAge", .str "15"),
     ("broadcastDate", .str "2023.10.08"),
     ("episodeContents", .str "episode synopsis"),
     ("imgFileUrl", .str "https://fs.jtbc.co.kr//joydata/20231008_163541_522_1.jpg")])]

/-- Modelled from the spec: the recorded VOD playback response for the sample
URL; its `playTime` parses to the fixture's expected duration 3770.0
(1:02:50). -/
def samplePlayback : PyVal :=
  .dict [("playTime", .str "01:02:50"),
         ("tracks", .list []),
         ("sources", .dict [("HLS", .list
           [.dict [("file", .str "https://vod.jtbc.co.kr/stream/playlist.m3u8")]])])]

/-- The record the embedding produces on the sample inputs. -/
def sampleRecord : JtbcRecord :=
  { id := "ep20216321"
    title := .str "힘쎈여자 강남순 2회 다시보기"
    series := .str "힘쎈여자 강남순"
    age_limit := Option.some 15
    release_date := Option.some "20231008"
    description := .str "episode synopsis"
    thumbnail := .str "https://fs.jtbc.co.kr//joydata/20231008_163541_522_1.jpg"
    duration := Option.some 3770
    formats := ["https://vod.jtbc.co.kr/stream/index.m3u8"]
    subtitles := [] }

end JTBCIE

/-! ### VRTIE._perform_login (src/yt_dlp/extractor/vrt.py, lines 66-98)

The retry loop is embedded over a sequence of outcomes for the login POST
attempts: attempt `i` (1-based) succeeds, fails with an `ExtractorError`
whose cause is an HTTPError with some status code, or fails with any other
`ExtractorError`.  The loop `while login_attempt <= 3` runs its body only
while the attempt counter is at most 3 and the counter is incremented exactly
once per continuing iteration, so the remaining-iteration fuel below starts
at 3. -/

namespace VRTIE

/-- Outcome of one login POST attempt. -/
inductive AttemptRes where
  | success
  | httpErr (code : Nat)
  | otherErr (msg : String)

/-- What `_perform_login` did: how many POST attempts ran, the seconds slept
(one entry per `self._sleep(1, ...)` call), the exception that propagated (if
any), and whether `self._authenticated = True` was reached. -/
structure LoginRun where
  attempts : Nat
  sleeps : List Nat
  raised : Option AttemptRes
  authenticated : Bool

/-- The retry loop of `_perform_login`: on a 401 cause the counter advances,
a warning is reported and the code sleeps one second; on success the loop
breaks; on any other error the exception is re-raised.  Falling out of the
loop (fuel exhausted) reaches `self._authenticated = True` just like a
break does. -/
def perform_login_aux (outcomes : Nat → AttemptRes) :
    Nat → Nat → List Nat → LoginRun
  | 0, made, sleeps =>
    { attempts := made, sleeps := sleeps, raised := Option.none, authenticated := true }
  | fuel + 1, made, sleeps =>
    match outcomes (made + 1) with
    | .success =>
      { attempts := made + 1, sleeps := sleeps, raised := Option.none,
        authenticated := true }
    | .httpErr code =>
      if code = 401 then perform_login_aux outcomes fuel (made + 1) (sleeps ++ [1])
      else
        { attempts := made + 1, sleeps := sleeps,
          raised := Option.some (.httpErr code), authenticated := false }
    | .otherErr m =>
      { attempts := made + 1, sleeps := sleeps,
        raised := Option.some (.otherErr m), authenticated := false }

/-- Embedding of the retry portion of `VRTIE._perform_login`
(`login_attempt = 1; while login_attempt <= 3: ...`). -/
def perform_login (outcomes : Nat → AttemptRes) : LoginRun :=
  perform_login_aux outcomes 3 0 []

/-- Every attempt fails with HTTP 401. -/
def all401 : Nat → AttemptRes := fun _ => .httpErr 401

/-- The first attempt succeeds. -/
def firstSucceeds : Nat → AttemptRes := fun _ => .success

/-! ### VRTIE._real_extract, metadata traversal (vrt.py, lines 103-123)

The `.model.json` response is traversed with chained `.get` calls and a bare
`actions[2]` index - none of it defensive.  `parse_iso8601` and the
`strftime('%Y%m%d', gmtime(_))` composition are host-framework / stdlib
collaborators and are taken as function parameters. -/

/-- The metadata pulled out of the `.model.json` asset by lines 105-123. -/
structure VrtMeta where
  title : PyVal
  video_id : String
  description : PyVal
  display_id : PyVal
  timestamp : PyVal
  upload_date : PyVal
  series : PyVal
  season : PyVal
  season_number : PyVal
  season_id : PyVal
  episode : PyVal
  episode_number : PyVal
  episode_id : PyVal

/-- Embedding of vrt.py lines 105-123, the metadata traversal of
`_real_extract`.  `parse_iso8601` and `strftime_gmtime` stand for the
framework helpers used on the timestamp. -/
def extract_meta (parse_iso8601 strftime_gmtime : PyVal → PyVal)
    (model_json : PyVal) : Except PyErr VrtMeta := do
  let details ← model_json.get "details"
  let actions ← details.get "actions"
  let title ← details.get "title"
  let episode_publication_id ← (← actions.item 2).get "episodePublicationId"
  let episode_video_id ← (← actions.item 2).get "episodeVideoId"
  let video_id := episode_publication_id.toStr ++ "$" ++ episode_video_id.toStr
  let description ← details.get "description"
  let episode ← (← details.get "data").get "episode"
  let display_id ← episode.get "name"
  let timestamp := parse_iso8601 (← (← episode.get "onTime").get "raw")
  let upload_date := strftime_gmtime timestamp
  let series_info ← details.get "data"
  let series ← (← series_info.get "program").get "title"
  let season ← (← (← series_info.get "season").get "title").get "value"
  let season_number ← (← (← series_info.get "season").get "title").get "raw"
  let season_id ← (← series_info.get "season").get "id"
  let episode2 ← (← (← series_info.get "episode").get "number").get "value"
  let episode_number ← (← (← series_info.get "episode").get "number").get "raw"
  let episode_id ← (← series_info.get "episode").get "id"
  Except.ok
    { title := title
      video_id := video_id
      description := description
      display_id := display_id
      timestamp := timestamp
      upload_date := upload_date
      series := series
      season := season
      season_number := season_number
      season_id := season_id
      episode := episode2
      episode_number := episode_number
      episode_id := episode_id }

/-! ### VRTIE._real_extract, media-item error mapping (vrt.py, lines 147-153) -/

/-- Embedding of vrt.py lines 147-153: when the media-item response has no
`title`, map its `code` - `AUTHENTICATION_REQUIRED` to the login-required
signal, `INVALID_LOCATION` to the geo-restriction signal carrying `['BE']`,
anything else to an expected `ExtractorError` with
`video_info.get('message') or code`. -/
def video_info_check (video_info : PyVal) : Except PyErr Unit :=
  if video_info.hasKey "title" then .ok () else
    match video_info.get "code" with
    | .error e => .error e
    | .ok code =>
      if pyEqStr code "AUTHENTICATION_REQUIRED" then .error .loginRequired
      else if pyEqStr code "INVALID_LOCATION" then .error (.geoRestricted ["BE"])
      else
        match video_info.get "message" with
        | .error e => .error e
        | .ok msg => .error (.extractorError (msg.orElsePy code) true)

/-- The spec's sample URL for VRT. -/
def sampleUrl : String :=
  "https://www.vrt.be/vrtnu/a-z/de-ideale-wereld/2023-vj/de-ideale-wereld-d20230116/"

end VRTIE

/-! ### ServusIE (src/yt_dlp/extractor/servus.py) -/

namespace ServusIE

/-- Python string concatenation `a + b` where `a` is a `str`: TypeError unless
`b` is a `str` too. -/
def str_plus (a : String) (b : PyVal) : Except PyErr String :=
  match b with
  | .str s => .ok (a ++ s)
  | _ => .error (.typeError "can only concatenate str")

/-- The `for error in ...` loop body of `_report_errors` (servus.py lines
92-103), returning the warnings reported and the first exception raised, if
any.  For `FSK_BLOCKED` with a `minEveningHour` the source raises
`ExtractorError`, but servus.py never imports `ExtractorError`, so
evaluating that name raises `NameError`. -/
def report_errors_loop (video : PyVal) : List PyVal → List String × Option PyErr
  | [] => ([], Option.none)
  | e :: rest =>
    if pyEqStr e "FSK_BLOCKED" then
      match video.index "playabilityErrorDetails" with
      | .error err => ([], Option.some err)
      | .ok ped =>
        match ped.index "FSK_BLOCKED" with
        | .error err => ([], Option.some err)
        | .ok details =>
          if details.hasKey "minEveningHour" then
            ([], Option.some (.nameError "ExtractorError"))
          else report_errors_loop video rest
    else if pyEqStr e "NOT_YET_AVAILABLE" then
      match video.get "currentSunrise" with
      | .error err => ([], Option.some err)
      | .ok sunrise =>
        match str_plus "Only available after " sunrise with
        | .error err => ([], Option.some err)
        | .ok w =>
          let tail := report_errors_loop video rest
          (w :: tail.1, tail.2)
    else
      let tail := report_errors_loop video rest
      (("Not playable: " ++ e.toStr) :: tail.1, tail.2)

/-- Embedding of `ServusIE._report_errors` (servus.py lines 89-103): warnings
reported, and the exception that propagated, if any.  Iterating
`video.get('playabilityErrors')` iterates a list's elements, a string's
characters or a dict's keys, and raises TypeError on `None` or a number. -/
def report_errors (video : PyVal) : List String × Option PyErr :=
  let w0 : List String :=
    if video.hasKey "playabilityErrors" then []
    else ["No videoUrl, and also no information about errors"]
  match video.get "playabilityErrors" with
  | .error err => (w0, Option.some err)
  | .ok (.list es) =>
    let tail := report_errors_loop video es
    (w0 ++ tail.1, tail.2)
  | .ok (.str s) =>
    let tail := report_errors_loop video (s.data.map (fun c => PyVal.str (String.mk [c])))
    (w0 ++ tail.1, tail.2)
  | .ok (.dict kvs) =>
    let tail := report_errors_loop video (kvs.map (fun kv => PyVal.str kv.1))
    (w0 ++ tail.1, tail.2)
  | .ok _ => (w0, Option.some (.typeError "object is not iterable"))

/-- Python `.upper()` restricted to ASCII, which covers every id the pattern
can capture in the fixtures. -/
def asciiUpper (s : String) : String := String.mk (s.data.map Char.toUpper)

/-- `re.search(r'Season (\d+)', s)` style search: leftmost literal followed by
a greedy digit run, as an `Option Int` (composing the `int_or_none` the
source applies). -/
def searchNumAfter (key : List Char) : List Char → Option Int
  | [] => Option.none
  | c :: rest =>
    match dropPrefixLit key (c :: rest) with
    | Option.some r =>
      match r with
      | d :: _ =>
        if d.isDigit then Option.some (parseNatDigits (r.takeWhile Char.isDigit))
        else searchNumAfter key rest
      | [] => searchNumAfter key rest
    | Option.none => searchNumAfter key rest

/-- Modelled from the spec: the framework's `float_or_none` with no scale
(yt_dlp/utils, not under src/); the fixture duration is the exact integer
2823. -/
def float_or_none_int : PyVal → Option Int
  | .int n => Option.some n
  | _ => Option.none

/-- `ServusIE._get_description` (servus.py lines 83-87): the framework
fetches a second JSON and `traverse_obj` takes `stv_long_description`, else
`stv_short_description`.  The fetched JSON is the `desc_info` input. -/
def get_description (desc_info : PyVal) : PyVal :=
  match desc_info.tr ["stv_long_description"] with
  | .none => desc_info.tr ["stv_short_description"]
  | v => v

/-- The media record `ServusIE._real_extract` returns.  `formats` keeps the
HLS manifest URL whose expansion `_extract_m3u8_formats_and_subtitles`
delegates to the framework. -/
structure ServusRecord where
  id : String
  title : PyVal
  description : PyVal
  thumbnail : PyVal
  duration : Option Int
  timestamp : Option Int
  series : PyVal
  season : PyVal
  season_number : Option Int
  episode : PyVal
  episode_number : Option Int
  formats : PyVal

/-- `int_or_none(self._search_regex(r'<lit>(\d+)', value or '', _,
default=None))` as used on the season and chapter strings; `_search_regex`
raises TypeError when handed a non-string. -/
def searchNumOf (key : List Char) (v : PyVal) : Except PyErr (Option Int) :=
  match v.orElsePy (.str "") with
  | .str s => Except.ok (searchNumAfter key s.data)
  | _ => Except.error (.typeError "expected string or bytes-like object")

/-- The field computations of `_real_extract` from `video['videoUrl']`
onwards (servus.py lines 57-81).  `uts` stands for the framework's
`unified_timestamp`. -/
def extract_core (uts : PyVal → Option Int) (video_id : String)
    (video desc_info : PyVal) : Except PyErr ServusRecord := do
  let vurl ← video.index "videoUrl"
  let season ← video.get "season"
  let season_number ← searchNumOf "Season ".data season
  let episode ← video.get "chapter"
  let episode_number ← searchNumOf "Episode ".data episode
  let title ← video.get "title"
  let vdescription ← video.get "description"
  let poster ← video.get "poster"
  let dur ← video.get "duration"
  let sunrise ← video.get "currentSunrise"
  Except.ok
    { id := video_id
      title := title
      description := (get_description desc_info).orElsePy vdescription
      thumbnail := poster
      duration := float_or_none_int dur
      timestamp := uts sunrise
      series := season
      season := season
      season_number := season_number
      episode := episode
      episode_number := episode_number
      formats := vurl }

/-- Embedding of `ServusIE._real_extract` (servus.py lines 49-81): the id
captured from the URL is upper-cased, `_report_errors` runs when the video
JSON has no `videoUrl` (its warnings are collected, its exception - if any -
propagates), and the record is then built starting from `video['videoUrl']`. -/
def real_extract (uts : PyVal → Option Int) (url : String)
    (video desc_info : PyVal) : List String × Except PyErr ServusRecord :=
  match valid_url_id url with
  | Option.none => ([], .error (.extractorError (.str "Unsupported URL") false))
  | Option.some m =>
    let pre :=
      if video.hasKey "videoUrl" then (([] : List String), (Option.none : Option PyErr))
      else report_errors video
    match pre.2 with
    | Option.some e => (pre.1, .error e)
    | Option.none => (pre.1, extract_core uts (asciiUpper m) video desc_info)

/-- The fixture URL of servus.py. -/
def sampleUrl : String := "https://www.servustv.com/natur/v/aa-28bycqnh92111/"

/-- A video JSON with no `videoUrl` that reports the `NOT_YET_AVAILABLE`
playability error (content not yet published). -/
def notYetAvailableVideo : PyVal :=
  .dict [("playabilityErrors", .list [.str "NOT_YET_AVAILABLE"]),
         ("currentSunrise", .str "2022-06-20T05:00:00+02:00")]

/-- A stand-in for `unified_timestamp` that the claims never evaluate. -/
def utsNone : PyVal → Option Int := fun _ => Option.none

/-- A complete video JSON for the fixture id, shaped as `_real_extract`
consumes it. -/
def sampleVideo : PyVal :=
  .dict [("videoUrl", .str "https://stv-vod.redbull.com/v/AA-28BYCQNH92111/playlist.m3u8"),
         ("title", .str "Klettersteige in den Alpen"),
         ("description", .str "Vie Ferrate"),
         ("poster", .str "https://www.servustv.com/poster.jpg"),
         ("duration", .int 2823),
         ("currentSunrise", .str "2022-06-20T22:32:13+02:00"),
         ("season", .str "Season 11"),
         ("chapter", .str "Episode 8 - Vie Ferrate")]

end ServusIE

/-! ### ManotoTVIE._real_extract (src/yt_dlp/extractor/manoto.py, lines 28-62) -/

namespace ManotoTVIE

/-- Python `int(v)` for the shapes reachable here. -/
def pyIntOf : PyVal → Except PyErr Int
  | .int n => .ok n
  | .str s =>
    if s = "" then .error (.valueError "invalid literal for int")
    else if s.data.all Char.isDigit then .ok (parseNatDigits s.data)
    else .error (.valueError "invalid literal for int")
  | .bool b => .ok (if b then 1 else 0)
  | _ => .error (.typeError "int() argument")

/-- Embedding of `ManotoTVIE._real_extract`.  The episode-details JSON is an
input (the fetch succeeded).  The statement
`formats = self._extract_m3u8_formats(video_url, video_id, ext)` evaluates
the name `ext`, which is bound nowhere in the function (nor at module level),
so reaching it raises `NameError`; the return dict of lines 48-62 is
unreachable, which is why the success type below is never produced. -/
def real_extract (url : String) (episode_json : PyVal) :
    Except PyErr (List (String × PyVal)) :=
  match valid_url_id url with
  | Option.none => .error (.extractorError (.str "Unsupported URL") false)
  | Option.some _video_id => do
    let details ← episode_json.getD "details" (.dict [])
    let _series ← details.get "showTitle"
    let sn ← details.get "analyticsSeasonNumber"
    let snDigit ← sn.isdigitM
    let _season_number := if snDigit then sn else PyVal.int 0
    let en ← details.get "episodeNumber"
    let enDigit ← en.isdigitM
    let _episode_number := if enDigit then en else PyVal.int 0
    let _title ← details.get "episodeTitle"
    let _episode_id ← details.get "analyticsEpisodeTitle"
    let _description ← details.get "episodeDescription"
    let durMin ← details.get "durationInMinutes"
    let _duration ← durMin.mulInt 60
    let _view_count ← details.get "viewCount"
    let _videoCategory ← details.get "videoCategory"
    let _video_url ← details.get "videoM3u8Url"
    let _thumbnail ← details.get "episodelandscapeImgIxUrl"
    .error (.nameError "ext")

/-- The fixture URL of manoto.py. -/
def sampleUrl : String := "https://www.manototv.com/episode/12576"

/-- An episode-details JSON carrying every field the function reads, typed as
the fixture expects. -/
def fullEpisodeJson : PyVal :=
  .dict [("details", .dict
    [("showTitle", .str "Iranian Films"),
     ("analyticsSeasonNumber", .str "0"),
     ("episodeNumber", .str "0"),
     ("episodeTitle", .str "Seh Mah Taatili"),
     ("analyticsEpisodeTitle", .str "Seh Mah Taatili"),
     ("episodeDescription", .str "a 1977 film"),
     ("durationInMinutes", .int 90),
     ("viewCount", .int 10550),
     ("videoCategory", .str "Entertainment"),
     ("videoM3u8Url", .str "https://dak1vd5vmi7x6.cloudfront.net/12576.m3u8"),
     ("episodelandscapeImgIxUrl", .str "https://images.manototv.com/12576.jpeg")])]

/-- A successful episode-details fetch whose `details` is empty: every
`details.get(...)` yields `None`, and `None.isdigit()` raises
AttributeError before the `ext` reference is ever reached. -/
def emptyDetailsJson : PyVal := .dict [("details", .dict [])]

end ManotoTVIE

/-! ### Kanal2IE.get_timestamp (src/yt_dlp/extractor/kanal2.py, lines 59-80)

`get_timestamp` extracts `"dd.mm.yyyy hh:mm"` from the playlist subtitle,
parses it with `datetime.strptime`, converts with `time.mktime` - which
interprets the naive time in the TIMEZONE OF THE RUNNING MACHINE - and then
adds `pytz.timezone('Europe/Tallinn').utcoffset(date).microseconds`.  The
`.microseconds` attribute of a timedelta is its sub-second component, which
is 0 for the whole-hour Tallinn offset, so the intended normalisation to the
Tallinn timezone adds nothing and the result stays machine-dependent.  The
embedding therefore takes the machine's UTC offset (in seconds, at that local
time) as a parameter. -/

namespace Kanal2IE

/-- Gregorian leap year. -/
def isLeap (y : Int) : Bool := (y % 4 == 0 && y % 100 != 0) || y % 400 == 0

/-- Length of a month. -/
def daysInMonth (y m : Int) : Int :=
  if m = 2 then (if isLeap y then 29 else 28)
  else if m = 4 ∨ m = 6 ∨ m = 9 ∨ m = 11 then 30
  else 31

/-- Days from the Unix epoch to the civil date y-m-d (the standard civil
calendar algorithm, as used by the stdlib time conversions being modelled). -/
def days_from_civil (y m d : Int) : Int :=
  let y2 := if m ≤ 2 then y - 1 else y
  let era := (if 0 ≤ y2 then y2 else y2 - 399) / 400
  let yoe := y2 - era * 400
  let mp := (m + 9) % 12
  let doy := (153 * mp + 2) / 5 + d - 1
  let doe := yoe * 365 + yoe / 4 - yoe / 100 + doy
  era * 146097 + doe - 719468

/-- One position of `re.search` for
`SUBTITLE_DATE_RE = \((\d{2}\.\d{2}\.\d{4}\s\d{2}:\d{2})\)$` : succeed only
when the whole remainder is `(dd.mm.yyyy hh:mm)` followed by the end of the
string, returning the 16 captured characters. -/
def dateMatchAt (cs : List Char) : Option (List Char) :=
  match cs with
  | '(' :: d1 :: d2 :: '.' :: m1 :: m2 :: '.' :: y1 :: y2 :: y3 :: y4 ::
      w :: h1 :: h2 :: ':' :: n1 :: n2 :: ')' :: [] =>
    if d1.isDigit && d2.isDigit && m1.isDigit && m2.isDigit &&
       y1.isDigit && y2.isDigit && y3.isDigit && y4.isDigit &&
       w.isWhitespace && h1.isDigit && h2.isDigit && n1.isDigit && n2.isDigit then
      Option.some [d1, d2, '.', m1, m2, '.', y1, y2, y3, y4, w, h1, h2, ':', n1, n2]
    else Option.none
  | _ => Option.none

/-- `self._search_regex(self.SUBTITLE_DATE_RE, subtitle, 'dateandtime',
default=None)`: scan left to right for the first position where the
end-anchored pattern matches. -/
def subtitleDateSearch : List Char → Option (List Char)
  | [] => Option.none
  | c :: rest =>
    match dateMatchAt (c :: rest) with
    | Option.some g => Option.some g
    | Option.none => subtitleDateSearch rest

/-- Modelled stdlib `datetime.strptime(match, '%d.%m.%Y %H:%M')` on the
16-character shape the regex guarantees: parse the fields and validate the
calendar ranges (ValueError outside them). -/
def strptime_dmY_HM (g : List Char) :
    Except PyErr (Int × Int × Int × Int × Int) :=
  match g with
  | [d1, d2, _, m1, m2, _, y1, y2, y3, y4, _, h1, h2, _, n1, n2] =>
    let dd : Int := (parseNatDigits [d1, d2] : Nat)
    let mo : Int := (parseNatDigits [m1, m2] : Nat)
    let yy : Int := (parseNatDigits [y1, y2, y3, y4] : Nat)
    let hh : Int := (parseNatDigits [h1, h2] : Nat)
    let nn : Int := (parseNatDigits [n1, n2] : Nat)
    if 1 ≤ mo ∧ mo ≤ 12 ∧ 1 ≤ dd ∧ dd ≤ daysInMonth yy mo ∧ hh ≤ 23 ∧ nn ≤ 59 then
      .ok (yy, mo, dd, hh, nn)
    else .error (.valueError "time data does not match format")
  | _ => .error (.valueError "time data does not match format")

/-- Modelled stdlib `time.mktime(date.timetuple())`: the naive civil time is
interpreted in the timezone of the running machine, whose UTC offset at that
local time is `machineUtcOffset` seconds. -/
def mktime (machineUtcOffset : Int) (y mo d h mi : Int) : Int :=
  days_from_civil y mo d * 86400 + h * 3600 + mi * 60 - machineUtcOffset

/-- `pytz.timezone('Europe/Tallinn').utcoffset(date).microseconds`: the
sub-second component of the Tallinn UTC offset, which is a whole number of
hours, hence 0.  (The source adds this to `unixtime`; adding the .seconds or
.total_seconds() of the offset is what would have shifted the epoch.) -/
def tallinn_utcoffset_microseconds : Int := 0

/-- Embedding of `Kanal2IE.get_timestamp` (kanal2.py lines 59-80),
parameterised by the running machine's UTC offset that `time.mktime`
consults.  Falsy subtitles and non-matching subtitles yield `None`; a
matched date is converted with `mktime` and the pytz `.microseconds`
component (0) is added. -/
def get_timestamp (machineUtcOffset : Int) (subtitle : PyVal) :
    Except PyErr (Option Int) :=
  if subtitle.truthy = false then .ok Option.none
  else
    match subtitle with
    | .str s =>
      match subtitleDateSearch s.data with
      | Option.none => .ok Option.none
      | Option.some g => do
        let ymd ← strptime_dmY_HM g
        let unixtime := mktime machineUtcOffset ymd.1 ymd.2.1 ymd.2.2.1 ymd.2.2.2.1 ymd.2.2.2.2
        .ok (Option.some (unixtime + tallinn_utcoffset_microseconds))
    | _ => .error (.typeError "expected string or bytes-like object")

/-- The `timestamp` entry of the record `_real_extract` builds (kanal2.py
line 46): `self.get_timestamp(traverse_obj(playlist, ('info', 'subtitle')))`. -/
def record_timestamp (machineUtcOffset : Int) (playlist : PyVal) :
    Except PyErr (Option Int) :=
  get_timestamp machineUtcOffset (playlist.tr ["info", "subtitle"])

/-- The recorded playlist response for the fixture URL
`https://kanal2.postimees.ee/pluss/video/?id=40792`, whose info subtitle is
the fixture's `Osa 53  (05.08.2016 20:00)`. -/
def samplePlaylist : PyVal :=
  .dict [("info", .dict
    [("title", .str "Aedniku aabits"),
     ("subtitle", .str "Osa 53  (05.08.2016 20:00)")])]

/-- The UTC offset (seconds) of Europe/Tallinn at 2016-08-05 20:00 local
time: UTC+3 (EEST). -/
def tallinnSummerOffset : Int := 10800

end Kanal2IE

/-- Whether an `Except` computation returned (rather than raised). -/
def exOk {α : Type} : Except PyErr α → Bool
  | .ok _ => true
  | .error _ => false

/-- The record the Servus embedding produces on the sample inputs. -/
def ServusIE.sampleRecord : ServusIE.ServusRecord :=
  { id := "AA-28BYCQNH92111"
    title := .str "Klettersteige in den Alpen"
    description := .str "Vie Ferrate"
    thumbnail := .str "https://www.servustv.com/poster.jpg"
    duration := Option.some 2823
    timestamp := Option.none
    series := .str "Season 11"
    season := .str "Season 11"
    season_number := Option.some 11
    episode := .str "Episode 8 - Vie Ferrate"
    episode_number := Option.some 8
    formats := .str "https://stv-vod.redbull.com/v/AA-28BYCQNH92111/playlist.m3u8" }

/-! ## Helper lemmas -/

theorem except_bind_ok {α β : Type} (x : Except PyErr α) (f : α → Except PyErr β) (r : β)
    (h : x >>= f = .ok r) : ∃ a, x = .ok a ∧ f a = .ok r := by
  cases x with
  | error e => simp [Bind.bind, Except.bind] at h
  | ok a => exact ⟨a, rfl, by simpa [Bind.bind, Except.bind] using h⟩

theorem except_bind_not_ok {α β : Type} (x : Except PyErr α) (f : α → Except PyErr β)
    (h : ∀ a, exOk (f a) = false) : exOk (x >>= f) = false := by
  cases x with
  | error e => rfl
  | ok a => simpa [Bind.bind, Except.bind] using h a

theorem perform_login_aux_attempts_le (outcomes : Nat → VRTIE.AttemptRes) :
    ∀ fuel made sleeps,
      (VRTIE.perform_login_aux outcomes fuel made sleeps).attempts ≤ made + fuel := by
  intro fuel
  induction fuel with
  | zero => intro made sleeps; simp [VRTIE.perform_login_aux]
  | succ n ih =>
    intro made sleeps
    cases h : outcomes (made + 1) with
    | success =>
      simp only [VRTIE.perform_login_aux, h]
      omega
    | httpErr code =>
      by_cases hc : code = 401
      · subst hc
        have hrec := ih (made + 1) (sleeps ++ [1])
        simp only [VRTIE.perform_login_aux, h, if_pos]
        omega
      · simp only [VRTIE.perform_login_aux, h, if_neg hc]
        omega
    | otherErr m =>
      simp only [VRTIE.perform_login_aux, h]
      omega

theorem servus_extract_core_id (uts : PyVal → Option Int) (vid : String)
    (video desc_info : PyVal) (r : ServusIE.ServusRecord)
    (h : ServusIE.extract_core uts vid video desc_info = .ok r) : r.id = vid := by
  unfold ServusIE.extract_core at h
  obtain ⟨a1, -, h⟩ := except_bind_ok _ _ _ h
  obtain ⟨a2, -, h⟩ := except_bind_ok _ _ _ h
  obtain ⟨a3, -, h⟩ := except_bind_ok _ _ _ h
  obtain ⟨a4, -, h⟩ := except_bind_ok _ _ _ h
  obtain ⟨a5, -, h⟩ := except_bind_ok _ _ _ h
  obtain ⟨a6, -, h⟩ := except_bind_ok _ _ _ h
  obtain ⟨a7, -, h⟩ := except_bind_ok _ _ _ h
  obtain ⟨a8, -, h⟩ := except_bind_ok _ _ _ h
  obtain ⟨a9, -, h⟩ := except_bind_ok _ _ _ h
  obtain ⟨a10, -, h⟩ := except_bind_ok _ _ _ h
  cases h
  rfl

/-! ## The claims -/

/-- C1: for the JTBC sample URL
`https://tv.jtbc.co.kr/replay/pr10011629/pm10067930/ep20216321/view`,
extraction against the recorded upstream responses yields a record whose
`id` is `ep20216321`, whose duration is 3770.0 (seconds) and whose
`release_date` is `20231008`, matching the module's fixture. -/
theorem C1_jtbc_sample_extraction :
    JTBCIE.real_extract JTBCIE.sampleUrl JTBCIE.sampleWebpage
        JTBCIE.sampleMetadata JTBCIE.samplePlayback = .ok JTBCIE.sampleRecord ∧
    JTBCIE.sampleRecord.id = "ep20216321" ∧
    JTBCIE.sampleRecord.duration = Option.some 3770 ∧
    JTBCIE.sampleRecord.release_date = Option.some "20231008" :=
  ⟨rfl, rfl, rfl, rfl⟩

/-- C2 (counterexample): when every login POST attempt fails with HTTP 401,
`_perform_login` runs out of retries and RETURNS NORMALLY - no exception is
raised (`raised = none`) and `self._authenticated = True` is even reached -
so the authentication failure is not surfaced to the caller as an error,
contrary to the claim. -/
theorem C2_all401_not_surfaced :
    VRTIE.perform_login VRTIE.all401 =
      { attempts := 3, sleeps := [1, 1, 1], raised := Option.none,
        authenticated := true } :=
  rfl

/-- C2 (amended): if every login POST attempt fails with HTTP 401, then after
the three attempts are exhausted the loop exits, each failure having been
reported only as a warning, and the method returns normally with the session
marked authenticated - the failure is silently swallowed rather than
surfaced as an error. -/
theorem C2_all401_returns_normally (outcomes : Nat → VRTIE.AttemptRes)
    (h : ∀ i, 1 ≤ i → i ≤ 3 → outcomes i = .httpErr 401) :
    VRTIE.perform_login outcomes =
      { attempts := 3, sleeps := [1, 1, 1], raised := Option.none,
        authenticated := true } := by
  have h1 := h 1 (by omega) (by omega)
  have h2 := h 2 (by omega) (by omega)
  have h3 := h 3 (by omega) (by omega)
  simp [VRTIE.perform_login, VRTIE.perform_login_aux, h1, h2, h3]

/-- C2 (witness for the amended claim). -/
theorem C2_all401_returns_normally_witness :
    VRTIE.perform_login VRTIE.all401 =
      { attempts := 3, sleeps := [1, 1, 1], raised := Option.none,
        authenticated := true } :=
  C2_all401_returns_normally VRTIE.all401 (fun _ _ _ => rfl)

/-- C3: on a Servus video JSON with no `videoUrl` that reports
`NOT_YET_AVAILABLE`, `_report_errors` logs the `Only available after ...`
warning and raises nothing itself - but `_real_extract` then evaluates
`video['videoUrl']` unconditionally, so the extraction fails with an
uncaught `KeyError` instead of proceeding non-fatally as the spec
describes. -/
theorem C3_servus_not_yet_available :
    ServusIE.report_errors ServusIE.notYetAvailableVideo =
      (["Only available after 2022-06-20T05:00:00+02:00"], Option.none) ∧
    ServusIE.real_extract ServusIE.utsNone ServusIE.sampleUrl
        ServusIE.notYetAvailableVideo PyVal.none =
      (["Only available after 2022-06-20T05:00:00+02:00"],
        .error (.keyError "videoUrl")) :=
  ⟨rfl, rfl⟩

/-- C4 (counterexample): a successful episode-details fetch whose `details`
dict is empty makes `ManotoTVIE._real_extract` fail with an
`AttributeError` on `None.isdigit()` BEFORE the `ext` reference is reached,
so not every successful fetch fails with the unbound-name error. -/
theorem C4_manoto_attribute_error_first :
    ManotoTVIE.real_extract ManotoTVIE.sampleUrl ManotoTVIE.emptyDetailsJson =
      .error (.attributeError "isdigit") :=
  rfl

/-- C4 (amended): `ManotoTVIE._real_extract` never returns a record - on
every URL and every episode-details response it raises; when the details
carry the expected fields (as in the fixture) it reaches the
`formats = self._extract_m3u8_formats(video_url, video_id, ext)` statement
and fails there with the unbound-name error on `ext`, and responses with
missing or differently-typed fields fail earlier with attribute or type
errors. -/
theorem C4_manoto_never_returns :
    (∀ url episode_json, exOk (ManotoTVIE.real_extract url episode_json) = false) ∧
    ManotoTVIE.real_extract ManotoTVIE.sampleUrl ManotoTVIE.fullEpisodeJson =
      .error (.nameError "ext") := by
  constructor
  · intro url episode_json
    unfold ManotoTVIE.real_extract
    cases ManotoTVIE.valid_url_id url with
    | none => rfl
    | some v =>
      iterate 15 (apply except_bind_not_ok; intro _)
      rfl
  · rfl

/-- C5: the VRT login flow performs the login POST at most three times; when
the first `k - 1` attempts fail with HTTP 401 it has slept a fixed one
second between consecutive attempts (`k - 1` one-second sleeps before
attempt `k`); it stops retrying as soon as one attempt succeeds; and an
error that is not an HTTP 401 is re-raised immediately, with no further
attempt. -/
theorem C5_vrt_login_retry_policy (outcomes : Nat → VRTIE.AttemptRes) :
    (VRTIE.perform_login outcomes).attempts ≤ 3 ∧
    (∀ k, 1 ≤ k → k ≤ 3 → (∀ i, 1 ≤ i → i < k → outcomes i = .httpErr 401) →
      outcomes k = .success →
      VRTIE.perform_login outcomes =
        { attempts := k, sleeps := List.replicate (k - 1) 1,
          raised := Option.none, authenticated := true }) ∧
    (∀ k code, 1 ≤ k → k ≤ 3 → (∀ i, 1 ≤ i → i < k → outcomes i = .httpErr 401) →
      outcomes k = .httpErr code → code ≠ 401 →
      VRTIE.perform_login outcomes =
        { attempts := k, sleeps := List.replicate (k - 1) 1,
          raised := Option.some (.httpErr code), authenticated := false }) ∧
    (∀ k m, 1 ≤ k → k ≤ 3 → (∀ i, 1 ≤ i → i < k → outcomes i = .httpErr 401) →
      outcomes k = .otherErr m →
      VRTIE.perform_login outcomes =
        { attempts := k, sleeps := List.replicate (k - 1) 1,
          raised := Option.some (.otherErr m), authenticated := false }) := by
  refine ⟨perform_login_aux_attempts_le outcomes 3 0 [], ?_, ?_, ?_⟩
  · intro k hk1 hk3 hprev hsucc
    interval_cases k
    · simp [VRTIE.perform_login, VRTIE.perform_login_aux, hsucc]
    · have h1 := hprev 1 (by omega) (by omega)
      simp [VRTIE.perform_login, VRTIE.perform_login_aux, h1, hsucc]
    · have h1 := hprev 1 (by omega) (by omega)
      have h2 := hprev 2 (by omega) (by omega)
      simp [VRTIE.perform_login, VRTIE.perform_login_aux, h1, h2, hsucc]
  · intro k code hk1 hk3 hprev hcode hne
    interval_cases k
    · simp [VRTIE.perform_login, VRTIE.perform_login_aux, hcode, hne]
    · have h1 := hprev 1 (by omega) (by omega)
      simp [VRTIE.perform_login, VRTIE.perform_login_aux, h1, hcode, hne]
    · have h1 := hprev 1 (by omega) (by omega)
      have h2 := hprev 2 (by omega) (by omega)
      simp [VRTIE.perform_login, VRTIE.perform_login_aux, h1, h2, hcode, hne]
  · intro k m hk1 hk3 hprev hother
    interval_cases k
    · simp [VRTIE.perform_login, VRTIE.perform_login_aux, hother]
    · have h1 := hprev 1 (by omega) (by omega)
      simp [VRTIE.perform_login, VRTIE.perform_login_aux, h1, hother]
    · have h1 := hprev 1 (by omega) (by omega)
      have h2 := hprev 2 (by omega) (by omega)
      simp [VRTIE.perform_login, VRTIE.perform_login_aux, h1, h2, hother]

/-- C5 (witness): a first-attempt success makes exactly one POST attempt and
no sleep. -/
theorem C5_vrt_login_retry_policy_witness :
    VRTIE.perform_login VRTIE.firstSucceeds =
      { attempts := 1, sleeps := List.replicate 0 1,
        raised := Option.none, authenticated := true } :=
  (C5_vrt_login_retry_policy VRTIE.firstSucceeds).2.1 1 (by omega) (by omega)
    (fun _ hi hlt => absurd hlt (by omega)) rfl

/-- C6: when the VRT media-item response has no `title`, the code
`INVALID_LOCATION` raises the geo-restriction signal carrying `['BE']`,
`AUTHENTICATION_REQUIRED` raises the login-required signal, and any other
code raises an `ExtractorError` marked expected carrying the upstream
message. -/
theorem C6_vrt_media_error_mapping :
    VRTIE.video_info_check (.dict [("code", .str "INVALID_LOCATION")]) =
      .error (.geoRestricted ["BE"]) ∧
    VRTIE.video_info_check (.dict [("code", .str "AUTHENTICATION_REQUIRED")]) =
      .error .loginRequired ∧
    (∀ c m, c ≠ "AUTHENTICATION_REQUIRED" → c ≠ "INVALID_LOCATION" → m ≠ "" →
      VRTIE.video_info_check (.dict [("code", .str c), ("message", .str m)]) =
        .error (.extractorError (.str m) true)) := by
  refine ⟨rfl, rfl, ?_⟩
  intro c m hc1 hc2 hm
  simp [VRTIE.video_info_check, PyVal.hasKey, lookupKey, PyVal.get, pyEqStr,
    PyVal.orElsePy, PyVal.truthy, hc1, hc2, hm]

/-- C6 (witness): a concrete unrecognised code with a nonempty message. -/
theorem C6_vrt_media_error_mapping_witness :
    VRTIE.video_info_check (.dict [("code", .str "SOME_ERROR"), ("message", .str "oops")]) =
      .error (.extractorError (.str "oops") true) :=
  C6_vrt_media_error_mapping.2.2 "SOME_ERROR" "oops" (by decide) (by decide) (by decide)

/-- C7: `Kanal2IE.get_timestamp` applied (through the record's `timestamp`
entry) to the recorded subtitle `Osa 53  (05.08.2016 20:00)` yields
1470416400 only when the running machine's UTC offset is +3 hours
(Europe/Tallinn summer time); on a UTC machine it yields 1470427200,
because the pytz adjustment the source applies is
`utcoffset(date).microseconds`, the sub-second component, which is 0. -/
theorem C7_kanal2_timestamp_machine_dependent :
    Kanal2IE.record_timestamp Kanal2IE.tallinnSummerOffset Kanal2IE.samplePlaylist =
      .ok (Option.some 1470416400) ∧
    Kanal2IE.record_timestamp 0 Kanal2IE.samplePlaylist =
      .ok (Option.some 1470427200) :=
  ⟨rfl, rfl⟩

/-- C8: the VRT metadata traversal is not defensive: on the well-formed
fixture URL, a `.model.json` response that is missing the `details` field
makes `_real_extract` fail with an uncaught `AttributeError`
(`None.get('actions')`), whatever the framework timestamp helpers do. -/
theorem C8_vrt_undefensive_traversal :
    (∀ parse_iso8601 strftime_gmtime,
      VRTIE.extract_meta parse_iso8601 strftime_gmtime (.dict []) =
        .error (.attributeError "get")) ∧
    VRTIE.valid_url_id VRTIE.sampleUrl = Option.some "de-ideale-wereld-d20230116" :=
  ⟨fun _ _ => rfl, rfl⟩

/-- C9: each documented example URL of the cited `_VALID_URL` patterns
(JTBCIE, ServusIE, ManotoTVIE) is accepted, and the `id` capture group
extracts the identifier the fixture expects. -/
theorem C9_valid_url_fixture_urls :
    JTBCIE.valid_url_id "https://tv.jtbc.co.kr/replay/pr10011629/pm10067930/ep20216321/view" =
      Option.some "ep20216321" ∧
    JTBCIE.valid_url_id "https://vod.jtbc.co.kr/player/program/ep20216733" =
      Option.some "ep20216733" ∧
    JTBCIE.valid_url_id "https://vod.jtbc.co.kr/player/clip/vo10721270" =
      Option.some "vo10721270" ∧
    JTBCIE.valid_url_id "https://tv.jtbc.co.kr/trailer/pr10010392/pm10032526/vo10720912/view" =
      Option.some "vo10720912" ∧
    ServusIE.valid_url_id "https://www.servustv.com/natur/v/aa-28bycqnh92111/" =
      Option.some "aa-28bycqnh92111" ∧
    ServusIE.valid_url_id "https://www.pm-wissen.com/videos/aa-24mus4g2w2112/" =
      Option.some "aa-24mus4g2w2112" ∧
    ServusIE.valid_url_id "https://www.servustv.com/natur/v/aa-1xg5xwmgw2112/" =
      Option.some "aa-1xg5xwmgw2112" ∧
    ServusIE.valid_url_id "https://www.servustv.com/natur/v/aansszcx3yi9jmlmhdc1/" =
      Option.some "aansszcx3yi9jmlmhdc1" ∧
    ManotoTVIE.valid_url_id "https://www.manototv.com/episode/12576" =
      Option.some "12576" :=
  ⟨rfl, rfl, rfl, rfl, rfl, rfl, rfl, rfl, rfl⟩

/-- C10: whenever the Servus extractor accepts a URL and returns a record,
the record's `id` is the captured identifier converted to upper case. -/
theorem C10_servus_id_uppercased (uts : PyVal → Option Int) (url : String)
    (video desc_info : PyVal) (m : String) (r : ServusIE.ServusRecord)
    (warns : List String)
    (h1 : ServusIE.valid_url_id url = Option.some m)
    (h2 : ServusIE.real_extract uts url video desc_info = (warns, Except.ok r)) :
    r.id = ServusIE.asciiUpper m := by
  unfold ServusIE.real_extract at h2
  rw [h1] at h2
  dsimp only at h2
  split at h2
  · simp at h2
  · rw [Prod.mk.injEq] at h2
    exact servus_extract_core_id _ _ _ _ _ h2.2

/-- C10 (witness): the fixture URL captures `aa-28bycqnh92111` and the
returned record's id is the distinct upper-cased `AA-28BYCQNH92111`. -/
theorem C10_servus_id_uppercased_witness :
    ServusIE.sampleRecord.id = ServusIE.asciiUpper "aa-28bycqnh92111" ∧
    ServusIE.asciiUpper "aa-28bycqnh92111" = "AA-28BYCQNH92111" ∧
    (("AA-28BYCQNH92111" : String) == "aa-28bycqnh92111") = false :=
  ⟨C10_servus_id_uppercased ServusIE.utsNone ServusIE.sampleUrl ServusIE.sampleVideo
      PyVal.none "aa-28bycqnh92111" ServusIE.sampleRecord [] rfl rfl,
   rfl, rfl⟩
